import Mathlib

/-!
Verification of the per-company Facebook-ads analysis pipeline of the
Ads-Analyzer repository.

The repository's analysis logic is plain string/regex heuristics over the
HTML document returned by a scraping provider, followed by a small amount
of arithmetic.  We embed that logic shallowly: strings are Lean `String`
(logically a list of `Char`), JS regex counting over the concrete patterns
used by the code is implemented by explicit left-to-right non-overlapping
scanners (exactly the semantics of `String.prototype.match` with a `/g`
flag for these particular patterns, which contain no nested quantifier
ambiguity), and JS number arithmetic on the small constants involved
(`0.15`, `0.25`, `0.4`, ...) is embedded as exact rational arithmetic,
which agrees with the float computation on all integer outputs produced
here.  Fallible external calls (the fetch collaborator, the LLM
collaborator) are modelled as explicit inputs: an `Except` value for a
fetch that can throw, a record of already-parsed JSON fields for the LLM
verification output.
-/

/-! ## Basic JS string primitives -/

/-- Lower-case a string character-wise (model of `String.prototype.toLowerCase`
for the ASCII documents handled here). -/
def lowerStr (s : String) : String := ⟨s.data.map Char.toLower⟩

/-- Test whether `p` is at the head of `s`. -/
def leadsWith : List Char → List Char → Bool
  | [], _ => true
  | _ :: _, [] => false
  | a :: p, b :: s => a == b && leadsWith p s

/-- Occurrence of `needle` anywhere in `hay` (model of
`String.prototype.includes`; the empty needle is contained in everything). -/
def containsTok (needle : List Char) : List Char → Bool
  | [] => needle.isEmpty
  | c :: t => leadsWith needle (c :: t) || containsTok needle t

/-- Model of `hay.includes(needle)` on strings. -/
def jsIncludes (hay needle : String) : Bool := containsTok needle.data hay.data

/-- JS whitespace test restricted to the ASCII whitespace appearing in the
documents under analysis. -/
def isWs (c : Char) : Bool := c == ' ' || c == '\t' || c == '\n' || c == '\r'

/-- Model of `String.prototype.trim` (strip whitespace at both ends). -/
def jsTrim (s : String) : String :=
  ⟨((s.data.dropWhile isWs).reverse.dropWhile isWs).reverse⟩

/-! ## Generic regex-count scanner

`scanCountAux tryM fuel s` counts non-overlapping matches of a pattern whose
single-position matcher is `tryM`: on a match `tryM` returns the remainder of
the input after the matched text (always strictly shorter for the non-empty
patterns used here), mirroring the `lastIndex` advancement of a JS `/g`
regex; on failure the scan advances one character. -/

def scanCountAux (tryM : List Char → Option (List Char)) : Nat → List Char → Nat
  | 0, _ => 0
  | _ + 1, [] => 0
  | fuel + 1, c :: t =>
    match tryM (c :: t) with
    | some rest => 1 + scanCountAux tryM fuel rest
    | none => scanCountAux tryM fuel t

def scanCount (tryM : List Char → Option (List Char)) (s : List Char) : Nat :=
  scanCountAux tryM s.length s

/-- Matcher for a literal token. -/
def tryLit (tok : List Char) (s : List Char) : Option (List Char) :=
  if leadsWith tok s then some (s.drop tok.length) else none

/-- Count of non-overlapping occurrences of the literal `needle` in `hay`
(model of `hay.match(/needle/g).length` for a literal pattern). -/
def countOcc (needle hay : String) : Nat := scanCount (tryLit needle.data) hay.data

/-- Matcher for the pattern `>\s*WORD\s*<` (as in `/>\s*Ad\s*</gi`), applied
to lower-cased input with a lower-cased `word`. -/
def tryLabel (word : List Char) (s : List Char) : Option (List Char) :=
  match s with
  | '>' :: t =>
    let t1 := t.dropWhile isWs
    if leadsWith word t1 then
      let t2 := (t1.drop word.length).dropWhile isWs
      match t2 with
      | '<' :: r => some r
      | _ => none
    else none
  | _ => none

/-- Matcher for the pattern `PFX"[^"]*MARK[^"]*"` (as in
`/data-testid="[^"]*ad[^"]*"/gi`): the literal `pfx` (which ends with the
opening quote), then a quote-free span that must contain `mark`, then the
closing quote.  Since `[^"]*` can never cross a quote, the JS match is
exactly the span up to the first quote after `pfx`. -/
def tryAttr (pfx mark : List Char) (s : List Char) : Option (List Char) :=
  if leadsWith pfx s then
    let t := s.drop pfx.length
    let span := t.takeWhile (fun c => c != '"')
    match t.dropWhile (fun c => c != '"') with
    | '"' :: r => if containsTok mark span then some r else none
    | _ => none
  else none

/-- Matcher for the pattern `OPEN[^>]*...[^>]*>` (as in `/<article[^>]*>/gi`
or `/<div[^>]*role="article"[^>]*>/gi`): the literal `opn`, then a `>`-free
span satisfying `check`, then `>`.  Since `[^>]*` can never cross a `>`, the
JS match is exactly the span up to the first `>` after `opn`. -/
def tryTag (opn : List Char) (check : List Char → Bool) (s : List Char) :
    Option (List Char) :=
  if leadsWith opn s then
    let t := s.drop opn.length
    let span := t.takeWhile (fun c => c != '>')
    match t.dropWhile (fun c => c != '>') with
    | '>' :: r => if check span then some r else none
    | _ => none
  else none

/-- Inner check for `class="[^"]*x1i10hfl[^"]*"` occurring inside a
`>`-free attribute span: some occurrence of `class="` is followed by a
quote-free span containing the marker and a closing quote. -/
def hasQuotedMark (pfx mark : List Char) : List Char → Bool
  | [] => false
  | c :: t =>
    (if leadsWith pfx (c :: t) then
      let u := (c :: t).drop pfx.length
      let span := u.takeWhile (fun d => d != '"')
      match u.dropWhile (fun d => d != '"') with
      | '"' :: _ => containsTok mark span
      | _ => false
    else false) || hasQuotedMark pfx mark t

/-! ## Shared per-document checks (src/app/api/analyze/route.ts) -/

/-- The fixed "no results" indicator list of the Browserless analyze route. -/
def noResultsIndicators : List String :=
  ["no results found",
   "we couldn't find any results",
   "try a different search",
   "no ads to show",
   "no results",
   "nothing to show here",
   "no active ads",
   "try different keywords"]

/-- `hasNoResults`: some indicator occurs in the lower-cased document. -/
def hasNoResults (html : String) : Bool :=
  noResultsIndicators.any (fun ind => jsIncludes (lowerStr html) ind)

/-- `cleanCompanyName = companyName.trim().replace(/[^\w\s]/g, '').trim()`:
keep word characters (`[A-Za-z0-9_]`) and whitespace, dropping the rest. -/
def cleanName (companyName : String) : String :=
  jsTrim ⟨(jsTrim companyName).data.filter
    (fun c => c.isAlphanum || c == '_' || isWs c)⟩

/-- `websiteUrl.replace(/^https?:\/\//, '').replace(/^www\./, '').split('/')[0].toLowerCase()`. -/
def extractDomain (websiteUrl : String) : String :=
  let s1 := if leadsWith "https://".data websiteUrl.data then websiteUrl.drop 8
            else if leadsWith "http://".data websiteUrl.data then websiteUrl.drop 7
            else websiteUrl
  let s2 := if leadsWith "www.".data s1.data then s1.drop 4 else s1
  lowerStr ⟨s2.data.takeWhile (fun c => c != '/')⟩

/-- `domainAppears = bodyText.includes(websiteDomain)`. -/
def domainAppears (websiteUrl html : String) : Bool :=
  jsIncludes (lowerStr html) (extractDomain websiteUrl)

/-- `companyNameAppears = bodyText.includes(cleanCompanyName.toLowerCase())
|| bodyText.includes(companyName.toLowerCase())`. -/
def nameAppears (companyName html : String) : Bool :=
  jsIncludes (lowerStr html) (lowerStr (cleanName companyName)) ||
  jsIncludes (lowerStr html) (lowerStr companyName)

/-! ## Ad counting of the Browserless analyze route -/

/-- `(htmlContent.match(/>\s*Ad\s*</gi) || []).length`. -/
def countAdLabel (html : String) : Nat :=
  scanCount (tryLabel "ad".data) (lowerStr html).data

/-- `(htmlContent.match(/data-testid="[^"]*ad[^"]*"/gi) || []).length`. -/
def countDataTestAd (html : String) : Nat :=
  scanCount (tryAttr "data-testid=\"".data "ad".data) (lowerStr html).data

/-- `(htmlContent.match(/<article[^>]*>/gi) || []).length`. -/
def countArticleTag (html : String) : Nat :=
  scanCount (tryTag "<article".data (fun _ => true)) (lowerStr html).data

/-- The final `adCount` of the Browserless analyze route: the max of the
sponsored / ad-label / data-attribute counts, and, when that max is below 3,
additionally the article-element count capped at 20. -/
def routeAdCount (html : String) : Nat :=
  let sponsoredMatches := countOcc "sponsored" (lowerStr html)
  let adLabelMatches := countAdLabel html
  let dataTestMatches := countDataTestAd html
  let adCount := max sponsoredMatches (max adLabelMatches dataTestMatches)
  if adCount < 3 then max adCount (min (countArticleTag html) 20) else adCount

/-! ## Result shapes -/

/-- The result record returned by each per-company scraping function
(`found`, `activeAds`, `newAds`, `error`). -/
structure Outcome where
  found : Bool
  activeAds : Option Int
  newAds : Option Int
  error : Option String
deriving DecidableEq, Repr

/-- The `CompanyResult` record pushed by the route handlers. -/
structure CompanyResult where
  companyName : String
  websiteUrl : String
  activeAds : Option Int
  newAds : Option Int
  found : Bool
  error : Option String
deriving DecidableEq, Repr

/-- The `CompanyInput` record of the request body. -/
structure CompanyInput where
  companyName : String
  websiteUrl : String
deriving DecidableEq, Repr

/-- `newAdsRatio = dateRange <= 7 ? 0.15 : dateRange <= 30 ? 0.25 : 0.4`. -/
def newAdsRatio (dateRange : Int) : ℚ :=
  if dateRange ≤ 7 then 15/100 else if dateRange ≤ 30 then 25/100 else 40/100

/-- The success-path body of `scrapeFacebookAdsWithBrowserless` in
src/app/api/analyze/route.ts, as a pure function of the scraped HTML. -/
def scrapeCore (companyName websiteUrl : String) (dateRange : Int)
    (html : String) : Outcome :=
  if hasNoResults html then
    ⟨false, none, none, some "No ads found in Facebook Ads Library"⟩
  else if routeAdCount html = 0 then
    if nameAppears companyName html then
      ⟨false, none, none,
        some ("Found \"" ++ companyName ++ "\" but no active ads detected")⟩
    else
      ⟨false, none, none,
        some ("Company \"" ++ companyName ++ "\" not found in Facebook Ads Library")⟩
  else
    ⟨true, some (routeAdCount html : Int),
      some (Int.ceil ((routeAdCount html : ℚ) * newAdsRatio dateRange)),
      if !domainAppears websiteUrl html && !nameAppears companyName html then
        some ("Found " ++ toString (routeAdCount html) ++
          " ads but verification uncertain - please review results")
      else none⟩

/-- The classified failure of the fetch collaborator (an axios error with an
optional HTTP status). -/
structure FetchError where
  status : Option Int
  message : String
deriving DecidableEq, Repr

/-- `scrapeFacebookAdsWithBrowserless` including its `catch` branch: a fetch
failure with status 429 becomes the rate-limit message, any other failure
becomes `Scraping failed: …`. -/
def scrapeBrowserless (companyName websiteUrl : String) (dateRange : Int)
    (fetched : Except FetchError String) : Outcome :=
  match fetched with
  | Except.ok html => scrapeCore companyName websiteUrl dateRange html
  | Except.error e =>
    if e.status = some 429 then
      ⟨false, none, none, some "Rate limit exceeded - please wait and try again"⟩
    else
      ⟨false, none, none, some ("Scraping failed: " ++ e.message)⟩

/-! ## Handle extraction (src/unnamed/part_003, `extractSocialHandles`) -/

/-- Case-insensitive head test: `tok` (given lower-case) is at the head of
`s` up to lower-casing. -/
def leadsWithCI : List Char → List Char → Bool
  | [], _ => true
  | _ :: _, [] => false
  | a :: p, b :: s => a == b.toLower && leadsWithCI p s

/-- Leftmost match of a pattern `TOK([^\/\?#]+)` with the `i` flag: find the
first (case-insensitive) occurrence of `tok` that is followed by at least one
character outside `/?#`, and capture that maximal run in original case. -/
def findCapture (tok : List Char) : List Char → Option (List Char)
  | [] => none
  | c :: t =>
    if leadsWithCI tok (c :: t) then
      let cap := ((c :: t).drop tok.length).takeWhile
        (fun d => d != '/' && d != '?' && d != '#')
      if cap.isEmpty then findCapture tok t else some cap
    else findCapture tok t

/-- The post-capture cleanup `replace(/\/$/, '').replace(/\?.*$/, '').replace(/#.*$/, '')`
(each a no-op on a `[^\/\?#]+` capture, kept for fidelity). -/
def cleanCapture (m : List Char) : List Char :=
  let m1 := if m.getLast? = some '/' then m.dropLast else m
  let m2 := m1.takeWhile (fun d => d != '?')
  m2.takeWhile (fun d => d != '#')

/-- The ordered host patterns of `extractSocialHandles`; the first that
matches wins. -/
def findHandle (facebookUrl : String) : Option String :=
  match findCapture "facebook.com/".data facebookUrl.data with
  | some m => some ⟨cleanCapture m⟩
  | none =>
    match findCapture "fb.com/".data facebookUrl.data with
    | some m => some ⟨cleanCapture m⟩
    | none =>
      match findCapture "m.facebook.com/".data facebookUrl.data with
      | some m => some ⟨cleanCapture m⟩
      | none => none

/-- First alternative of an ordered alternation that matches (case-insensitively)
at the head; returns its length. -/
def firstAltAt (alts : List (List Char)) (s : List Char) : Option Nat :=
  match alts with
  | [] => none
  | a :: rest => if leadsWithCI a s then some a.length else firstAltAt rest s

/-- Global case-insensitive removal of an ordered alternation
(`replace(/a|b|.../gi, '')`): at each position the first matching alternative
is removed, otherwise the scan advances one character. -/
def removeAltsAux (alts : List (List Char)) : Nat → List Char → List Char
  | 0, s => s
  | _ + 1, [] => []
  | fuel + 1, c :: t =>
    match firstAltAt alts (c :: t) with
    | some n => removeAltsAux alts fuel ((c :: t).drop n)
    | none => c :: removeAltsAux alts fuel t

def removeAlts (alts : List (List Char)) (s : List Char) : List Char :=
  removeAltsAux alts s.length s

/-- `mainHandle.replace(/service|aps|as|ltd|inc|llc|corp/gi, '').trim()`. -/
def bizStripped (m : String) : String :=
  jsTrim ⟨removeAlts
    ["service".data, "aps".data, "as".data, "ltd".data, "inc".data,
     "llc".data, "corp".data] m.data⟩

/-- `mainHandle.replace(/service|aps/gi, '')`. -/
def svcStripped (m : String) : String :=
  ⟨removeAlts ["service".data, "aps".data] m.data⟩

/-- The handle variation list built from the extracted main handle (the four
base variations followed by the five Instagram-style variations). -/
def handleVariations (m : String) : List String :=
  [m, lowerStr m, ⟨m.data.filter Char.isAlphanum⟩, bizStripped m,
   m ++ "insta", m ++ "_official", m ++ ".official", m ++ "_ig", svcStripped m]

/-- `Array.from(new Set(handles))`: deduplication keeping first occurrences. -/
def jsSetDedup (l : List String) : List String :=
  l.foldl (fun acc h => if acc.contains h then acc else acc ++ [h]) []

/-- `extractSocialHandles` of src/unnamed/part_003: extract the main handle
from the Facebook URL, build the variation list, deduplicate, and keep only
truthy handles of length above 2. -/
def extractSocialHandles (facebookUrl : String) : List String :=
  if facebookUrl = "" then []
  else
    match findHandle facebookUrl with
    | none => []
    | some m => (jsSetDedup (handleVariations m)).filter (fun h => 2 < h.length)

/-! ## Confidence classification (src/unnamed/part_003) -/

/-- The discrete verification tiers, ordered by trust. -/
inductive ConfidenceTier where
  | HANDLE
  | DOMAIN
  | NAME
  | NONE
deriving DecidableEq, Repr

/-- The evidence gathered from one document scan, as used by the
verification-message chain of src/unnamed/part_003. -/
structure EvidenceReport where
  handleMatched : Bool
  domainAppears : Bool
  nameAppears : Bool
deriving DecidableEq, Repr

/-- The classification chain of src/unnamed/part_003 (lines 289-298, matching
the counting dispatch at lines 197-256): handle evidence first, then domain,
then name, then none. -/
def classifyTier (e : EvidenceReport) : ConfidenceTier :=
  if e.handleMatched then ConfidenceTier.HANDLE
  else if e.domainAppears then ConfidenceTier.DOMAIN
  else if e.nameAppears then ConfidenceTier.NAME
  else ConfidenceTier.NONE

/-! ## The sibling Browserless variant (src/unnamed/part_005) -/

def p5NoResultsIndicators : List String :=
  ["no results found",
   "we couldn't find any results",
   "try a different search",
   "no ads to show",
   "no results",
   "nothing to show here",
   "no active ads"]

def p5HasNoResults (html : String) : Bool :=
  p5NoResultsIndicators.any (fun ind => jsIncludes (lowerStr html) ind)

/-- `(html.match(/>\s*WORD\s*</gi) || []).length`. -/
def countLabelWord (word html : String) : Nat :=
  scanCount (tryLabel word.data) (lowerStr html).data

/-- `(html.match(/PFX"[^"]*MARK[^"]*"/gi) || []).length`. -/
def countAttrMark (pfx mark html : String) : Nat :=
  scanCount (tryAttr pfx.data mark.data) (lowerStr html).data

/-- `(html.match(/<div[^>]*…[^>]*>/gi) || []).length` with an inner check on
the `>`-free attribute span. -/
def countDivWith (check : List Char → Bool) (html : String) : Nat :=
  scanCount (tryTag "<div".data check) (lowerStr html).data

/-- The ad count of src/unnamed/part_005: the max over the Method-1 label and
attribute patterns and the Method-2 container patterns, replaced by the
capped keyword total of Method 3 when that total is larger. -/
def p5AdCount (html : String) : Nat :=
  let m12 :=
    [countLabelWord "ad" html,
     countLabelWord "sponsored" html,
     countAttrMark "data-testid=\"" "ad" html,
     countAttrMark "aria-label=\"" "ad" html,
     countDivWith (fun span => containsTok "role=\"article\"".data span) html,
     countDivWith (fun span => containsTok "data-testid=\"serp-item\"".data span) html,
     countDivWith (fun span => hasQuotedMark "class=\"".data "x1i10hfl".data span) html]
  let adCount := m12.foldl max 0
  let keywordCount :=
    countOcc "sponsored" (lowerStr html) + countOcc "promote" (lowerStr html) +
    countOcc "advertisement" (lowerStr html) + countOcc "ad by" (lowerStr html)
  if adCount < keywordCount then min keywordCount 50 else adCount

/-- The success-path body of `scrapeFacebookAdsWithBrowserless` in
src/unnamed/part_005: unlike the analyze route, a positive count with neither
domain nor name evidence is returned as `found: false`. -/
def scrapeP5 (companyName websiteUrl : String) (dateRange : Int)
    (html : String) : Outcome :=
  if p5HasNoResults html then
    ⟨false, none, none, some "No ads found in Facebook Ads Library"⟩
  else if p5AdCount html = 0 then
    if !nameAppears companyName html then
      ⟨false, none, none,
        some ("Company \"" ++ companyName ++ "\" not found in Facebook Ads Library")⟩
    else
      ⟨false, none, none, some "Company found but no active ads detected"⟩
  else if !domainAppears websiteUrl html && !nameAppears companyName html then
    ⟨false, none, none,
      some ("Found ads but couldn't verify they belong to \"" ++ companyName ++ "\"")⟩
  else
    ⟨true, some (p5AdCount html : Int),
      some (Int.ceil ((p5AdCount html : ℚ) * newAdsRatio dateRange)), none⟩

/-! ## The puppeteer variant (src/unnamed/part_006) -/

/-- The data obtained from the puppeteer page in src/unnamed/part_006: the
`page.content()` text, the element counts returned by `page.$$` for the four
ad selectors in order, and the raw ad-like `div` count computed by the
`page.evaluate` fallback (capped at 50 inside the page script). -/
structure PuppeteerPage where
  content : String
  selectorCounts : List Nat
  adLikeDivCount : Nat
deriving DecidableEq, Repr

/-- `pageContent.includes('No results') || pageContent.includes('no ads') ||
pageContent.includes('No ads found')` (case-sensitive). -/
def p6NoResults (content : String) : Bool :=
  jsIncludes content "No results" || jsIncludes content "no ads" ||
  jsIncludes content "No ads found"

/-- First selector with a positive element count wins. -/
def firstPositive : List Nat → Nat
  | [] => 0
  | n :: t => if 0 < n then n else firstPositive t

def p6ActiveAds (page : PuppeteerPage) : Nat :=
  let a := firstPositive page.selectorCounts
  if a = 0 then min page.adLikeDivCount 50 else a

/-- `dateRange <= 7 ? 0.3 : dateRange <= 30 ? 0.6 : 0.8`. -/
def p6Ratio (dateRange : Int) : ℚ :=
  if dateRange ≤ 7 then 3/10 else if dateRange ≤ 30 then 6/10 else 8/10

/-- `scrapeFacebookAdsLibrary` of src/unnamed/part_006:
`newAds = Math.floor(activeAds * ratio)`. -/
def scrapeP6 (page : PuppeteerPage) (dateRange : Int) : Outcome :=
  if p6NoResults page.content then
    ⟨false, none, none, some "Company not found in ads library"⟩
  else
    let a := p6ActiveAds page
    ⟨decide (0 < a),
     if 0 < a then some (a : Int) else none,
     if 0 < a then some (Int.floor ((a : ℚ) * p6Ratio dateRange)) else none,
     none⟩

/-! ## Result construction in the POST handlers -/

/-- The parsed JSON object produced from the LLM verification response in
src/unnamed/part_004 (POST, lines 593-608). -/
structure VerifiedResult where
  found : Bool
  activeAds : Option Int
  newAds : Option Int
  error : Option String
deriving DecidableEq, Repr

/-- The `results.push({...})` of the LLM-verification path of
src/unnamed/part_004: every field is copied from the parsed LLM output
(`error: verifiedResult.error || undefined` collapses a falsy error). -/
def llmPushResult (c : CompanyInput) (v : VerifiedResult) : CompanyResult :=
  ⟨c.companyName, c.websiteUrl, v.activeAds, v.newAds, v.found,
    match v.error with
    | some s => if s = "" then none else some s
    | none => none⟩

/-- The `results.push({...})` of src/app/api/analyze/route.ts for a scraping
outcome (`error: scrapingResult.error || undefined`). -/
def outcomeResult (c : CompanyInput) (o : Outcome) : CompanyResult :=
  ⟨c.companyName, c.websiteUrl, o.activeAds, o.newAds, o.found,
    match o.error with
    | some s => if s = "" then none else some s
    | none => none⟩

/-- The `results.push({...})` of the per-company `catch` branch of
src/app/api/analyze/route.ts. -/
def caughtResult (c : CompanyInput) (msg : String) : CompanyResult :=
  ⟨c.companyName, c.websiteUrl, none, none, false, some msg⟩

/-- One iteration of the per-company loop body: the awaited scraping either
returns an outcome or raises, and a raise is converted at the per-company
boundary. -/
def stepResult (step : CompanyInput → Except String Outcome)
    (c : CompanyInput) : CompanyResult :=
  match step c with
  | Except.ok o => outcomeResult c o
  | Except.error msg => caughtResult c msg

/-- The company loop of the POST handler of src/app/api/analyze/route.ts:
companies with a blank name are skipped, every other company contributes one
result, in input order. -/
def postLoop (step : CompanyInput → Except String Outcome) :
    List CompanyInput → List CompanyResult
  | [] => []
  | c :: rest =>
    if jsTrim c.companyName = "" then postLoop step rest
    else stepResult step c :: postLoop step rest

/-- The found/activeAds invariant claimed in the spec for `CompanyResult`. -/
def foundIffPositive (found : Bool) (activeAds : Option Int) : Prop :=
  found = true ↔ ∃ n : Int, activeAds = some n ∧ 0 < n

/-! ## Helper lemmas -/

theorem jsSetDedup_aux_nodup (l : List String) (acc : List String)
    (hacc : acc.Nodup) :
    (l.foldl (fun acc h => if acc.contains h then acc else acc ++ [h]) acc).Nodup := by
  induction l generalizing acc with
  | nil => exact hacc
  | cons h t ih =>
    simp only [List.foldl_cons]
    by_cases hc : h ∈ acc
    · rw [show (if acc.contains h then acc else acc ++ [h]) = acc from by simp [hc]]
      exact ih acc hacc
    · rw [show (if acc.contains h then acc else acc ++ [h]) = acc ++ [h] from by simp [hc]]
      refine ih (acc ++ [h]) ?_
      simp [List.nodup_append, hacc, hc]

theorem jsSetDedup_nodup (l : List String) : (jsSetDedup l).Nodup :=
  jsSetDedup_aux_nodup l [] List.nodup_nil

theorem newAdsRatio_bounds (d : Int) : 0 ≤ newAdsRatio d ∧ newAdsRatio d ≤ 1 := by
  unfold newAdsRatio
  split
  · norm_num
  · split <;> norm_num

theorem p6Ratio_bounds (d : Int) : 0 ≤ p6Ratio d ∧ p6Ratio d ≤ 1 := by
  unfold p6Ratio
  split
  · norm_num
  · split <;> norm_num

theorem ceil_ratio_le (n : Nat) (r : ℚ) (h1 : r ≤ 1) :
    Int.ceil ((n : ℚ) * r) ≤ (n : Int) := by
  rw [Int.ceil_le]
  push_cast
  exact mul_le_of_le_one_right (by positivity) h1

theorem floor_ratio_le (n : Nat) (r : ℚ) (h1 : r ≤ 1) :
    Int.floor ((n : ℚ) * r) ≤ (n : Int) :=
  le_trans (Int.floor_le_ceil _) (ceil_ratio_le n r h1)

/-! ## C3 -/

/-- C3: whenever the lower-cased document contains any phrase of the fixed
"no results" indicator list, the Browserless analyze route returns
found=false with activeAds=null, newAds=null and the "no ads found" error,
for every company name, website URL and date range — the check short-circuits
before any counting. -/
theorem c3_no_results_short_circuit
    (companyName websiteUrl : String) (dateRange : Int) (html : String)
    (h : ∃ p ∈ noResultsIndicators, jsIncludes (lowerStr html) p = true) :
    scrapeCore companyName websiteUrl dateRange html =
      ⟨false, none, none, some "No ads found in Facebook Ads Library"⟩ := by
  have hb : hasNoResults html = true := by
    obtain ⟨p, hp, hinc⟩ := h
    unfold hasNoResults
    rw [List.any_eq_true]
    exact ⟨p, hp, hinc⟩
  simp [scrapeCore, hb]

theorem c3_witness :
    (∃ p ∈ noResultsIndicators,
      jsIncludes (lowerStr "Sorry - No Results Found.") p = true) ∧
    scrapeCore "Acme" "https://acme.com" 90 "Sorry - No Results Found." =
      ⟨false, none, none, some "No ads found in Facebook Ads Library"⟩ :=
  ⟨⟨"no results found", by decide, by decide⟩,
   c3_no_results_short_circuit "Acme" "https://acme.com" 90
     "Sorry - No Results Found." ⟨"no results found", by decide, by decide⟩⟩

/-! ## C4 -/

/-- C4: the confidence classification is a total function of the evidence
report (hence deterministic), with strict tier priority
HANDLE > DOMAIN > NAME > NONE: a handle match yields HANDLE regardless of the
other signals, and with no handle match domain evidence beats name evidence. -/
theorem c4_classifier_priority :
    ∀ hm dm nm : Bool,
      (hm = true → classifyTier ⟨hm, dm, nm⟩ = ConfidenceTier.HANDLE) ∧
      (hm = false → dm = true → classifyTier ⟨hm, dm, nm⟩ = ConfidenceTier.DOMAIN) ∧
      (hm = false → dm = false → nm = true → classifyTier ⟨hm, dm, nm⟩ = ConfidenceTier.NAME) ∧
      (hm = false → dm = false → nm = false → classifyTier ⟨hm, dm, nm⟩ = ConfidenceTier.NONE) := by
  decide

theorem c4_witness :
    classifyTier ⟨false, true, true⟩ = ConfidenceTier.DOMAIN :=
  (c4_classifier_priority false true true).2.1 rfl rfl

/-! ## C7 -/

/-- C7: the handle extractor is total (never throws): a URL matching no known
host pattern yields the empty handle set, and every handle kept in the
produced set has length strictly greater than 2, with no duplicates. -/
theorem c7_handle_extraction_safe :
    ∀ url : String,
      (∀ h ∈ extractSocialHandles url, 2 < h.length) ∧
      (extractSocialHandles url).Nodup ∧
      (findHandle url = none → extractSocialHandles url = []) := by
  intro url
  refine ⟨?_, ?_, ?_⟩
  · intro h hmem
    unfold extractSocialHandles at hmem
    split at hmem
    · simp at hmem
    · cases hf : findHandle url with
      | none => rw [hf] at hmem; simp at hmem
      | some m =>
        rw [hf] at hmem
        have := List.of_mem_filter hmem
        simpa using this
  · unfold extractSocialHandles
    split
    · exact List.nodup_nil
    · cases hf : findHandle url with
      | none => exact List.nodup_nil
      | some m => exact (jsSetDedup_nodup (handleVariations m)).filter _
  · intro hf
    unfold extractSocialHandles
    split
    · rfl
    · rw [hf]

theorem c7_witness :
    (2 < ("acmecorp" : String).length ∧
      (extractSocialHandles "https://twitter.com/acme") = []) :=
  ⟨(c7_handle_extraction_safe "https://facebook.com/acmecorp").1 "acmecorp" (by decide),
   (c7_handle_extraction_safe "https://twitter.com/acme").2.2 (by decide)⟩

/-! ## C1 -/

/-- C1 (amended): the found/activeAds equivalence holds for every outcome of
the Browserless scraping function — on each of its paths, including every
failure path — and it is preserved by the POST loop whenever the per-company
step only produces outcomes satisfying it.  (On the LLM-verification path of
src/unnamed/part_004 the fields are copied from the parsed LLM output without
validation, so there the invariant holds only if that output satisfies it;
see the counterexample.) -/
theorem c1_found_invariant :
    (∀ (companyName websiteUrl : String) (dateRange : Int)
        (fetched : Except FetchError String),
      foundIffPositive (scrapeBrowserless companyName websiteUrl dateRange fetched).found
        (scrapeBrowserless companyName websiteUrl dateRange fetched).activeAds) ∧
    (∀ (step : CompanyInput → Except String Outcome) (cs : List CompanyInput),
      (∀ c o, step c = Except.ok o → foundIffPositive o.found o.activeAds) →
      ∀ r ∈ postLoop step cs, foundIffPositive r.found r.activeAds) := by
  constructor
  · intro companyName websiteUrl dateRange fetched
    cases fetched with
    | error e =>
      simp only [scrapeBrowserless]
      split <;> simp [foundIffPositive]
    | ok html =>
      simp only [scrapeBrowserless, scrapeCore]
      split
      · simp [foundIffPositive]
      · split
        · split <;> simp [foundIffPositive]
        · rename_i hnz
          simp only [foundIffPositive]
          constructor
          · intro _
            refine ⟨(routeAdCount html : Int), rfl, ?_⟩
            exact_mod_cast Nat.pos_of_ne_zero hnz
          · intro _
            trivial
  · intro step cs hstep r hr
    induction cs with
    | nil => simp [postLoop] at hr
    | cons c rest ih =>
      unfold postLoop at hr
      split at hr
      · exact ih hr
      · rcases List.mem_cons.mp hr with hr | hr
        · subst hr
          unfold stepResult
          cases hc : step c with
          | ok o =>
            have := hstep c o hc
            simpa [outcomeResult, foundIffPositive] using this
          | error msg =>
            simp [caughtResult, foundIffPositive]
        · exact ih hr

/-- C1 counterexample: on the LLM-verification path the parsed output
with found=true, activeAds=0, newAds=0, error=null — a well-formed JSON
object the defensive parser accepts — is pushed verbatim, producing a
CompanyResult with found=true and activeAds=0, which violates the claimed
equivalence. -/
theorem c1_counterexample :
    ¬ foundIffPositive
        (llmPushResult ⟨"Acme", "https://acme.com"⟩ ⟨true, some 0, some 0, none⟩).found
        (llmPushResult ⟨"Acme", "https://acme.com"⟩ ⟨true, some 0, some 0, none⟩).activeAds := by
  intro h
  obtain ⟨n, hn, hpos⟩ := h.mp rfl
  have : n = 0 := by
    simpa [llmPushResult] using hn.symm
  omega

theorem c1_witness :
    foundIffPositive
      (scrapeBrowserless "Acme" "https://other.org" 7
        (Except.ok "sponsored sponsored sponsored")).found
      (scrapeBrowserless "Acme" "https://other.org" 7
        (Except.ok "sponsored sponsored sponsored")).activeAds ∧
    foundIffPositive (caughtResult ⟨"Acme", "u"⟩ "network down").found
      (caughtResult ⟨"Acme", "u"⟩ "network down").activeAds :=
  ⟨c1_found_invariant.1 "Acme" "https://other.org" 7
      (Except.ok "sponsored sponsored sponsored"),
   c1_found_invariant.2 (fun _ => Except.error "network down") [⟨"Acme", "u"⟩]
      (fun c o h => by simp at h)
      (caughtResult ⟨"Acme", "u"⟩ "network down") (by decide)⟩

/-! ## C2 -/

/-- C2 (amended): in the Browserless analyze route, every found=true result
carries `newAds = ceil(activeAds * ratio(d))` with the step function
ratio(d)=0.15 for d≤7, 0.25 for 7<d≤30, and 0.4 for d>30 (thresholds by
`<=`).  (The puppeteer variant of src/unnamed/part_006 instead uses
`floor(activeAds * ratio)` with ratios 0.3 / 0.6 / 0.8, and the variant of
src/unnamed/part_007 uses floor with 0.2 / 0.35 / 0.5; see the
counterexample.) -/
theorem c2_new_ads_formula
    (companyName websiteUrl : String) (dateRange : Int) (html : String)
    (h : (scrapeCore companyName websiteUrl dateRange html).found = true) :
    ∃ n : Nat, 0 < n ∧
      (scrapeCore companyName websiteUrl dateRange html).activeAds = some (n : Int) ∧
      (scrapeCore companyName websiteUrl dateRange html).newAds =
        some (Int.ceil ((n : ℚ) *
          (if dateRange ≤ 7 then (15 : ℚ)/100
           else if dateRange ≤ 30 then 25/100 else 40/100))) := by
  have hnr : hasNoResults html = false := by
    by_contra hc
    rw [Bool.not_eq_false] at hc
    simp [scrapeCore, hc] at h
  have hnz : routeAdCount html ≠ 0 := by
    intro hz
    by_cases hn : nameAppears companyName html <;>
      simp [scrapeCore, hnr, hz, hn] at h
  refine ⟨routeAdCount html, Nat.pos_of_ne_zero hnz, ?_, ?_⟩ <;>
    simp [scrapeCore, hnr, hnz, newAdsRatio]

/-- C2 counterexample: the puppeteer variant at a page whose first ad
selector returns 10 elements and dateRange=7 produces newAds=3
(= floor(10·0.3)), while the claimed formula gives ceil(10·0.15)=2. -/
theorem c2_counterexample :
    (scrapeP6 ⟨"results", [10, 0, 0, 0], 0⟩ 7).found = true ∧
    (scrapeP6 ⟨"results", [10, 0, 0, 0], 0⟩ 7).activeAds = some 10 ∧
    (scrapeP6 ⟨"results", [10, 0, 0, 0], 0⟩ 7).newAds = some 3 ∧
    (3 : Int) ≠ Int.ceil ((10 : ℚ) * (15/100)) := by
  have hnr : p6NoResults "results" = false := by decide
  have ha : p6ActiveAds ⟨"results", [10, 0, 0, 0], 0⟩ = 10 := by decide
  refine ⟨?_, ?_, ?_, ?_⟩
  · simp [scrapeP6, hnr, ha]
  · simp [scrapeP6, hnr, ha]
  · simp only [scrapeP6, hnr, ha, Bool.false_eq_true, if_false]
    norm_num [p6Ratio]
  · rw [show ((10 : ℚ) * (15/100)) = 3/2 by norm_num]
    rw [show (⌈(3/2 : ℚ)⌉ = 2) from by rw [Int.ceil_eq_iff]; norm_num]
    decide

theorem c2_witness :
    ∃ n : Nat, 0 < n ∧
      (scrapeCore "Acme" "https://other.org" 7 "sponsored sponsored sponsored").activeAds =
        some (n : Int) ∧
      (scrapeCore "Acme" "https://other.org" 7 "sponsored sponsored sponsored").newAds =
        some (Int.ceil ((n : ℚ) *
          (if (7 : Int) ≤ 7 then (15 : ℚ)/100
           else if (7 : Int) ≤ 30 then 25/100 else 40/100))) :=
  c2_new_ads_formula "Acme" "https://other.org" 7 "sponsored sponsored sponsored" (by decide)

/-! ## C5 -/

/-- C5 counterexample: a document containing the website domain but not the
company name, with zero marker counts, gets the "not found in Facebook Ads
Library" message from the analyze route, not the "found but no active ads"
message — the route chooses the message by company-name appearance alone,
ignoring domain evidence. -/
theorem c5_counterexample :
    domainAppears "https://acme.com" "visit acme.com today" = true ∧
    nameAppears "Zeta" "visit acme.com today" = false ∧
    hasNoResults "visit acme.com today" = false ∧
    routeAdCount "visit acme.com today" = 0 ∧
    (scrapeCore "Zeta" "https://acme.com" 7 "visit acme.com today").error =
      some "Company \"Zeta\" not found in Facebook Ads Library" ∧
    (scrapeCore "Zeta" "https://acme.com" 7 "visit acme.com today").error ≠
      some "Found \"Zeta\" but no active ads detected" := by
  decide

/-- C5 (amended): in the analyze route, whenever counting is reached and the
final ad count is 0, the result is found=false with null counts, and the
error message is the "found but no active ads detected" one exactly when the
company name appears in the document (domain evidence does not influence the
choice), the "not found in Facebook Ads Library" one otherwise; the two
messages are distinct for every company name. -/
theorem c5_zero_count_messages
    (companyName websiteUrl : String) (dateRange : Int) (html : String)
    (h1 : hasNoResults html = false) (h2 : routeAdCount html = 0) :
    (scrapeCore companyName websiteUrl dateRange html).found = false ∧
    (scrapeCore companyName websiteUrl dateRange html).activeAds = none ∧
    (scrapeCore companyName websiteUrl dateRange html).newAds = none ∧
    (scrapeCore companyName websiteUrl dateRange html).error =
      some (if nameAppears companyName html
        then "Found \"" ++ companyName ++ "\" but no active ads detected"
        else "Company \"" ++ companyName ++ "\" not found in Facebook Ads Library") ∧
    (∀ s : String,
      ("Found \"" ++ s ++ "\" but no active ads detected" : String) ≠
        "Company \"" ++ s ++ "\" not found in Facebook Ads Library") := by
  refine ⟨?_, ?_, ?_, ?_, ?_⟩
  · by_cases hn : nameAppears companyName html <;> simp [scrapeCore, h1, h2, hn]
  · by_cases hn : nameAppears companyName html <;> simp [scrapeCore, h1, h2, hn]
  · by_cases hn : nameAppears companyName html <;> simp [scrapeCore, h1, h2, hn]
  · by_cases hn : nameAppears companyName html <;> simp [scrapeCore, h1, h2, hn]
  · intro s hs
    have hlen := congrArg String.length hs
    rw [String.length_append, String.length_append,
        String.length_append, String.length_append] at hlen
    rw [show ("Found \"" : String).length = 7 from rfl,
        show ("\" but no active ads detected" : String).length = 28 from rfl,
        show ("Company \"" : String).length = 9 from rfl,
        show ("\" not found in Facebook Ads Library" : String).length = 35 from rfl]
      at hlen
    omega

theorem c5_witness :
    hasNoResults "visit acme.com today" = false ∧
    routeAdCount "visit acme.com today" = 0 ∧
    (scrapeCore "Zeta" "https://acme.com" 7 "visit acme.com today").found = false ∧
    (scrapeCore "Zeta" "https://acme.com" 7 "visit acme.com today").error =
      some (if nameAppears "Zeta" "visit acme.com today"
        then "Found \"" ++ "Zeta" ++ "\" but no active ads detected"
        else "Company \"" ++ "Zeta" ++ "\" not found in Facebook Ads Library") :=
  ⟨by decide, by decide,
   (c5_zero_count_messages "Zeta" "https://acme.com" 7 "visit acme.com today"
      (by decide) (by decide)).1,
   (c5_zero_count_messages "Zeta" "https://acme.com" 7 "visit acme.com today"
      (by decide) (by decide)).2.2.2.1⟩

/-! ## C6 -/

/-- C6: whenever both activeAds and newAds are non-null in a result of the
Browserless analyze route or of the puppeteer variant, newAds ≤ activeAds
(the ceiling, resp. floor, of activeAds times a ratio at most 1). -/
theorem c6_new_le_active :
    (∀ (companyName websiteUrl : String) (dateRange : Int) (html : String)
        (a b : Int),
      (scrapeCore companyName websiteUrl dateRange html).activeAds = some a →
      (scrapeCore companyName websiteUrl dateRange html).newAds = some b →
      b ≤ a) ∧
    (∀ (page : PuppeteerPage) (dateRange : Int) (a b : Int),
      (scrapeP6 page dateRange).activeAds = some a →
      (scrapeP6 page dateRange).newAds = some b →
      b ≤ a) := by
  constructor
  · intro companyName websiteUrl dateRange html a b ha hb
    by_cases h1 : hasNoResults html
    · simp [scrapeCore, h1] at ha
    · by_cases h2 : routeAdCount html = 0
      · by_cases hn : nameAppears companyName html <;>
          simp [scrapeCore, h1, h2, hn] at ha
      · simp only [scrapeCore] at ha hb
        rw [if_neg h1, if_neg h2] at ha hb
        dsimp only at ha hb
        simp only [Option.some.injEq] at ha hb
        subst ha hb
        exact ceil_ratio_le (routeAdCount html) _ (newAdsRatio_bounds dateRange).2
  · intro page dateRange a b ha hb
    by_cases h1 : p6NoResults page.content
    · simp [scrapeP6, h1] at ha
    · by_cases h2 : 0 < p6ActiveAds page
      · simp only [scrapeP6, h1, Bool.false_eq_true, if_false, h2, if_true] at ha hb
        simp only [Option.some.injEq] at ha hb
        subst ha hb
        exact floor_ratio_le (p6ActiveAds page) _ (p6Ratio_bounds dateRange).2
      · simp [scrapeP6, h1, h2] at ha

/-! ## Evaluation helpers for concrete witnesses -/

theorem scrape5_activeAds_eval :
    (scrapeCore "Acme" "https://other.org" 90
      "sponsored sponsored sponsored sponsored sponsored").activeAds = some 5 := by
  decide

theorem scrape5_newAds_eval :
    (scrapeCore "Acme" "https://other.org" 90
      "sponsored sponsored sponsored sponsored sponsored").newAds = some 2 := by
  have h1 : hasNoResults "sponsored sponsored sponsored sponsored sponsored" = false := by
    decide
  have h2 : routeAdCount "sponsored sponsored sponsored sponsored sponsored" = 5 := by
    decide
  simp only [scrapeCore, h1, h2, Bool.false_eq_true, if_false]
  norm_num [newAdsRatio]

/-! ## C6 (continued) -/

theorem c6_witness :
    (scrapeCore "Acme" "https://other.org" 90
      "sponsored sponsored sponsored sponsored sponsored").activeAds = some 5 ∧
    (scrapeCore "Acme" "https://other.org" 90
      "sponsored sponsored sponsored sponsored sponsored").newAds = some 2 ∧
    (2 : Int) ≤ 5 :=
  ⟨scrape5_activeAds_eval, scrape5_newAds_eval,
   c6_new_le_active.1 "Acme" "https://other.org" 90
     "sponsored sponsored sponsored sponsored sponsored" 5 2
     scrape5_activeAds_eval scrape5_newAds_eval⟩

/-! ## C8 -/

/-- C8: in the POST loop, every non-blank company contributes exactly one
result, in input order, regardless of whether its processing succeeded or
raised; a raise is converted at the per-company boundary into a
CompanyResult with found=false, null counts and the raised message, and the
remaining companies are still processed. -/
theorem c8_per_company_isolation :
    (∀ (step : CompanyInput → Except String Outcome) (cs : List CompanyInput),
      postLoop step cs =
        (cs.filter (fun c => !(jsTrim c.companyName == ""))).map (stepResult step)) ∧
    (∀ (step : CompanyInput → Except String Outcome) (c : CompanyInput) (e : String),
      step c = Except.error e →
      stepResult step c = ⟨c.companyName, c.websiteUrl, none, none, false, some e⟩) := by
  constructor
  · intro step cs
    induction cs with
    | nil => rfl
    | cons c rest ih =>
      by_cases hb : jsTrim c.companyName = ""
      · simp [postLoop, hb, ih]
      · simp [postLoop, hb, ih]
  · intro step c e h
    unfold stepResult
    rw [h]
    rfl

theorem c8_witness :
    postLoop
        (fun c => if c.companyName == "Bad" then Except.error "boom"
          else Except.ok ⟨true, some 5, some 2, none⟩)
        [⟨"Good", "g"⟩, ⟨"Bad", "b"⟩] =
      ([⟨"Good", "g"⟩, ⟨"Bad", "b"⟩].filter
          (fun c => !(jsTrim c.companyName == ""))).map
        (stepResult (fun c => if c.companyName == "Bad" then Except.error "boom"
          else Except.ok ⟨true, some 5, some 2, none⟩)) ∧
    stepResult
        (fun c => if c.companyName == "Bad" then Except.error "boom"
          else Except.ok ⟨true, some 5, some 2, none⟩)
        ⟨"Bad", "b"⟩ =
      ⟨"Bad", "b", none, none, false, some "boom"⟩ :=
  ⟨c8_per_company_isolation.1
      (fun c => if c.companyName == "Bad" then Except.error "boom"
        else Except.ok ⟨true, some 5, some 2, none⟩)
      [⟨"Good", "g"⟩, ⟨"Bad", "b"⟩],
   c8_per_company_isolation.2
      (fun c => if c.companyName == "Bad" then Except.error "boom"
        else Except.ok ⟨true, some 5, some 2, none⟩)
      ⟨"Bad", "b"⟩ "boom" rfl⟩

/-! ## C9 -/

/-- C9: when the ad count is positive but neither the website domain nor the
company name appears in the document, the analyze route still returns
found=true with the counted ads and a non-null verification-warning error
string — so a found=true CompanyResult can carry a non-null error — while
the sibling variant of src/unnamed/part_005 returns found=false with null
counts in the same situation. -/
theorem c9_unverified_positive_count :
    (∀ (companyName websiteUrl : String) (dateRange : Int) (html : String),
      hasNoResults html = false → routeAdCount html ≠ 0 →
      domainAppears websiteUrl html = false →
      nameAppears companyName html = false →
      (scrapeCore companyName websiteUrl dateRange html).found = true ∧
      (scrapeCore companyName websiteUrl dateRange html).activeAds =
        some (routeAdCount html : Int) ∧
      (scrapeCore companyName websiteUrl dateRange html).error =
        some ("Found " ++ toString (routeAdCount html) ++
          " ads but verification uncertain - please review results")) ∧
    (∀ (companyName websiteUrl : String) (dateRange : Int) (html : String),
      p5HasNoResults html = false → p5AdCount html ≠ 0 →
      domainAppears websiteUrl html = false →
      nameAppears companyName html = false →
      (scrapeP5 companyName websiteUrl dateRange html).found = false ∧
      (scrapeP5 companyName websiteUrl dateRange html).activeAds = none ∧
      (scrapeP5 companyName websiteUrl dateRange html).error =
        some ("Found ads but couldn't verify they belong to \"" ++
          companyName ++ "\"")) := by
  constructor
  · intro companyName websiteUrl dateRange html h1 h2 hd hn
    refine ⟨?_, ?_, ?_⟩ <;> simp [scrapeCore, h1, h2, hd, hn]
  · intro companyName websiteUrl dateRange html h1 h2 hd hn
    refine ⟨?_, ?_, ?_⟩ <;> simp [scrapeP5, h1, h2, hd, hn]

theorem c9_witness :
    ((scrapeCore "Zeta" "https://other.org" 7 "sponsored sponsored sponsored").found = true ∧
      (scrapeCore "Zeta" "https://other.org" 7 "sponsored sponsored sponsored").activeAds =
        some (routeAdCount "sponsored sponsored sponsored" : Int) ∧
      (scrapeCore "Zeta" "https://other.org" 7 "sponsored sponsored sponsored").error =
        some ("Found " ++ toString (routeAdCount "sponsored sponsored sponsored") ++
          " ads but verification uncertain - please review results")) ∧
    ((scrapeP5 "Zeta" "https://other.org" 7 "sponsored sponsored sponsored").found = false ∧
      (scrapeP5 "Zeta" "https://other.org" 7 "sponsored sponsored sponsored").activeAds = none ∧
      (scrapeP5 "Zeta" "https://other.org" 7 "sponsored sponsored sponsored").error =
        some ("Found ads but couldn't verify they belong to \"" ++ "Zeta" ++ "\"")) :=
  ⟨c9_unverified_positive_count.1 "Zeta" "https://other.org" 7
      "sponsored sponsored sponsored" (by decide) (by decide) (by decide) (by decide),
   c9_unverified_positive_count.2 "Zeta" "https://other.org" 7
      "sponsored sponsored sponsored" (by decide) (by decide) (by decide) (by decide)⟩

/-! ## C10 -/

/-- C10: a company whose name is blank (empty or whitespace-only) is silently
skipped by the POST loop — removing it from the input does not change the
output — and the output list is never longer than the input list. -/
theorem c10_blank_names_skipped :
    (∀ (step : CompanyInput → Except String Outcome)
        (xs ys : List CompanyInput) (c : CompanyInput),
      jsTrim c.companyName = "" →
      postLoop step (xs ++ c :: ys) = postLoop step (xs ++ ys)) ∧
    (∀ (step : CompanyInput → Except String Outcome) (cs : List CompanyInput),
      (postLoop step cs).length ≤ cs.length) := by
  constructor
  · intro step xs ys c hc
    induction xs with
    | nil => simp [postLoop, hc]
    | cons x t ih =>
      by_cases hx : jsTrim x.companyName = "" <;> simp [postLoop, hx, ih]
  · intro step cs
    induction cs with
    | nil => simp [postLoop]
    | cons c rest ih =>
      by_cases hc : jsTrim c.companyName = ""
      · have h' : postLoop step (c :: rest) = postLoop step rest := by
          simp [postLoop, hc]
        rw [h', List.length_cons]
        omega
      · have h' : postLoop step (c :: rest) =
            stepResult step c :: postLoop step rest := by
          simp [postLoop, hc]
        rw [h', List.length_cons, List.length_cons]
        omega
  
theorem c10_witness :
    postLoop (fun _ => Except.ok ⟨false, none, none, none⟩)
        ([⟨"Good", "g"⟩] ++ ⟨"   ", "b"⟩ :: [⟨"Last", "l"⟩]) =
      postLoop (fun _ => Except.ok ⟨false, none, none, none⟩)
        ([⟨"Good", "g"⟩] ++ [⟨"Last", "l"⟩]) :=
  c10_blank_names_skipped.1 (fun _ => Except.ok ⟨false, none, none, none⟩)
    [⟨"Good", "g"⟩] [⟨"Last", "l"⟩] ⟨"   ", "b"⟩ (by decide)
